import Mathlib

/-!
Verification of the backend in `main.py`: a FastAPI relay that builds prompts,
calls the Groq model API, persists results to Supabase, and serves a merged feed.

Modelling conventions:
* The Groq client is a parameter `groq_call : String → Except String String`;
  `Except.error e` models a raised exception whose `str(e)` is `e`.
* `call_ai` additionally returns the number of external model calls it issued
  (`0` on the configuration short-circuit, `1` otherwise).
* Supabase inserts are parameters returning `Except String (List String)`:
  the list models `result.data` projected to the `id` of each returned row;
  `Except.error` models a raised exception.
* Rows read back from the store are dictionaries in Python; a field accessed
  with `item.get(k, default)` is modelled as an `Option` field, where `none`
  means the key is absent. (`item["id"]` is a mandatory access, so `id` is a
  plain field.) The dict default `{}` for `analysis` is modelled as `none`.
* `HTTPException(status_code=500, detail=str(e))` is modelled by the handler
  returning `Except.error e`.
* Python `list.sort(key=lambda x: x.get("created_at", ""), reverse=True)` is a
  stable nonincreasing sort; stable sorting functions are extensionally unique,
  and `List.insertionSort feed_desc` (which inserts each earlier element before
  later elements of equal key) implements exactly that order.
-/

namespace Backend

/-- The uniform analysis shape returned by `call_ai` and persisted with every record. -/
structure Analysis where
  summary : String
  insights : List String
  status : String

/-- Request body of `POST /analyze_transcript` (pydantic `TranscriptRequest`). -/
structure TranscriptRequest where
  transcript : String
  company_name : String := ""
  attendees : String := ""
  date : String := ""

/-- Request body of `POST /generate_icebreaker` (pydantic `IcebreakerRequest`). -/
structure IcebreakerRequest where
  username : String
  role : String
  linkedin_bio : String
  deck_url : String := ""

/-- Python truthiness of the `GROQ_API_KEY` environment variable: the client is
only constructed when the key is set and non-empty. -/
def groq_configured : Option String → Bool
  | none => false
  | some k => k != ""

/-- The fixed analysis returned when no Groq key is configured. -/
def config_error_analysis : Analysis :=
  { summary := "Error: GROQ_API_KEY not configured. Please set your Groq API key in the .env file.",
    insights := ["AI configuration needed"],
    status := "error" }

/-- The analysis built in the `except` branch of `call_ai` from `str(e)`. -/
def groq_error_analysis (e : String) : Analysis :=
  { summary := "Error calling Groq API: " ++ e,
    insights := [],
    status := "error" }

/-- `call_ai(prompt)` from `main.py`. The second component counts the calls
issued to the external model service. -/
def call_ai (GROQ_API_KEY : Option String)
    (groq_call : String → Except String String) (prompt : String) : Analysis × Nat :=
  if groq_configured GROQ_API_KEY = false then
    (config_error_analysis, 0)
  else
    match groq_call prompt with
    | Except.ok ai_text => ({ summary := ai_text, insights := [], status := "success" }, 1)
    | Except.error e => (groq_error_analysis e, 1)

/- Literal segments of the transcript-review f-string template (lines 117-129). -/

def tp1 : String := "\n        Review this transcript for "

def tp2 : String := ".\n        Attendees: "

def tp3 : String := "\n        Date: "

def tp4 : String := "\n\n        Transcript:\n        "

def tp5 : String := "\n\n        Share:\n        1. What I did well (and why)\n        2. What I could do better next time\n        3. Recommendations for improvement\n        "

/-- The transcript prompt built by `analyze_transcript`. -/
def transcript_prompt (data : TranscriptRequest) : String :=
  tp1 ++ data.company_name ++ tp2 ++ data.attendees ++ tp3 ++ data.date ++
    tp4 ++ data.transcript ++ tp5

/- Literal segments of the icebreaker f-string template (lines 156-195), in
order around its eleven interpolation holes. -/

def ib1 : String := "\n        You are a sales expert analyzing a LinkedIn prospect for personalized outreach. Here\x27s the prospect information:\n\n        **Prospect Name:** "

def ib2 : String := "\n        **Current Role:** "

def ib3 : String := "\n        \n        **LinkedIn About Section:**\n        "

def ib4 : String := "\n\n        **Pitch Deck Context:** "

def ib5 : String := "\n\n        Based on this information, provide a comprehensive icebreaker analysis with the following sections:\n\n        ## 1. BUYING SIGNALS\n        - Identify 3-5 specific indicators that suggest "

def ib6 : String := " might be interested in purchasing solutions\n        - Look for pain points, growth initiatives, technology mentions, or business challenges\n        - Reference their role as "

def ib7 : String := " and how it relates to potential needs\n\n        ## 2. DISCOVERY TRIGGERS\n        - Find 3-4 conversation starters based on their background\n        - Identify shared connections, interests, or experiences\n        - Highlight recent achievements or career moves worth mentioning\n\n        ## 3. SMART QUESTIONS\n        - Create 4-5 thoughtful, role-specific questions for "

def ib8 : String := "\n        - Questions should demonstrate industry knowledge and genuine interest\n        - Avoid generic questions - make them specific to their situation\n\n        ## 4. PERSONALIZED OUTREACH APPROACH\n        - Suggest the best way to approach "

def ib9 : String := " based on their communication style\n        - Recommend timing and channel preferences\n        - Identify what value proposition would resonate most\n\n        ## 5. REFLECTION QUESTIONS\n        - What are the top 3 things "

def ib10 : String := " would likely care about most?\n        - What\x27s unclear about their current situation that needs discovery?\n        - What potential objections might they have and how to address them?\n\n        Make the analysis specific to "

def ib11 : String := " as a "

def ib12 : String := " and avoid generic advice.\n        "

/-- The icebreaker template with its four distinct interpolated values; the
fourth hole (the pitch-deck context) appears once, the username four more
times and the role three more times. -/
def icebreaker_prompt_core (username rol bio deck : String) : String :=
  ib1 ++ username ++ ib2 ++ rol ++ ib3 ++ bio ++ ib4 ++ deck ++ ib5 ++ username ++
    ib6 ++ rol ++ ib7 ++ rol ++ ib8 ++ username ++ ib9 ++ username ++ ib10 ++
    username ++ ib11 ++ rol ++ ib12

/-- The icebreaker prompt built by `generate_icebreaker`; the deck hole is
`data.deck_url if data.deck_url else "No pitch deck provided"`. -/
def icebreaker_prompt (data : IcebreakerRequest) : String :=
  icebreaker_prompt_core data.username data.role data.linkedin_bio
    (if data.deck_url ≠ "" then data.deck_url else "No pitch deck provided")

/-- Follows the spec words, for comparison with `icebreaker_prompt`: every
request field, including an empty `deck_url`, embedded verbatim into the fixed
template with no substitution. -/
def icebreaker_prompt_spec (data : IcebreakerRequest) : String :=
  icebreaker_prompt_core data.username data.role data.linkedin_bio data.deck_url

/-- `needle` occurs verbatim as a contiguous segment of `haystack`. -/
def embeds (needle haystack : String) : Prop :=
  ∃ pre post, haystack = pre ++ needle ++ post

/-- The row inserted into the `transcripts` table by `analyze_transcript`. -/
structure TranscriptRow where
  company_name : String
  attendees : String
  date : String
  transcript : String
  analysis : Analysis

/-- The row inserted into the `icebreakers` table by `generate_icebreaker`. -/
structure IcebreakerRow where
  username : String
  role : String
  linkedin_bio : String
  deck_url : String
  analysis : Analysis

/-- The JSON body returned by both submission handlers on success. -/
structure SubmitResponse where
  result : Analysis
  id : Option String

def transcript_insert_row (data : TranscriptRequest) (ai_response : Analysis) : TranscriptRow :=
  { company_name := data.company_name,
    attendees := data.attendees,
    date := data.date,
    transcript := data.transcript,
    analysis := ai_response }

def icebreaker_insert_row (data : IcebreakerRequest) (ai_response : Analysis) : IcebreakerRow :=
  { username := data.username,
    role := data.role,
    linkedin_bio := data.linkedin_bio,
    deck_url := data.deck_url,
    analysis := ai_response }

/-- `POST /analyze_transcript`: build the prompt, call the model, insert the
record, and answer `{"result": ai_response, "id": result.data[0]["id"] if result.data else None}`.
A store exception propagates as `HTTPException(500, str(e))`, modelled `Except.error e`. -/
def analyze_transcript (GROQ_API_KEY : Option String)
    (groq_call : String → Except String String)
    (insert_transcript : TranscriptRow → Except String (List String))
    (data : TranscriptRequest) : Except String SubmitResponse :=
  let prompt := transcript_prompt data
  let ai_response := (call_ai GROQ_API_KEY groq_call prompt).1
  match insert_transcript (transcript_insert_row data ai_response) with
  | Except.error e => Except.error e
  | Except.ok rows => Except.ok { result := ai_response, id := rows.head? }

/-- `POST /generate_icebreaker`: same shape as `analyze_transcript` over the
icebreaker template and the `icebreakers` table. -/
def generate_icebreaker (GROQ_API_KEY : Option String)
    (groq_call : String → Except String String)
    (insert_icebreaker : IcebreakerRow → Except String (List String))
    (data : IcebreakerRequest) : Except String SubmitResponse :=
  let prompt := icebreaker_prompt data
  let ai_response := (call_ai GROQ_API_KEY groq_call prompt).1
  match insert_icebreaker (icebreaker_insert_row data ai_response) with
  | Except.error e => Except.error e
  | Except.ok rows => Except.ok { result := ai_response, id := rows.head? }

/-- A row of the `transcripts` table as read back by `select("*")`; `Option`
fields model `item.get(...)` on keys that may be absent. -/
structure StoredTranscript where
  id : String
  company_name : Option String
  attendees : Option String
  date : Option String
  analysis : Option Analysis
  created_at : Option String

/-- A row of the `icebreakers` table as read back by `select("*")`. -/
structure StoredIcebreaker where
  id : String
  username : Option String
  role : Option String
  analysis : Option Analysis
  created_at : Option String

/-- One entry of the `/feed` response. Icebreaker items omit the `date` key
entirely, modelled as `date := none`. -/
structure FeedItem where
  id : String
  type : String
  title : String
  description : String
  date : Option String
  analysis : Option Analysis
  created_at : String

/-- The transcript branch of the feed-formatting loop (lines 230-239). -/
def transcript_feed_item (item : StoredTranscript) : FeedItem :=
  { id := item.id,
    type := "transcript",
    title := item.company_name.getD "Unknown Company",
    description := item.attendees.getD "",
    date := some (item.date.getD ""),
    analysis := item.analysis,
    created_at := item.created_at.getD "" }

/-- The icebreaker branch of the feed-formatting loop (lines 242-252). -/
def icebreaker_feed_item (item : StoredIcebreaker) : FeedItem :=
  let username := item.username.getD "Unknown User"
  let rol := item.role.getD "Unknown Role"
  { id := item.id,
    type := "icebreaker",
    title := "LinkedIn Icebreaker - " ++ username,
    description := rol ++ " • Sales Outreach Analysis",
    date := none,
    analysis := item.analysis,
    created_at := item.created_at.getD "" }

/-- The sort order of `feed_items.sort(key=lambda x: x.get("created_at", ""), reverse=True)`:
nonincreasing by the `created_at` string (every mapped item carries the key). -/
def feed_desc (a b : FeedItem) : Prop := b.created_at ≤ a.created_at

instance : DecidableRel feed_desc :=
  fun a b => inferInstanceAs (Decidable (b.created_at ≤ a.created_at))

instance : IsTotal FeedItem feed_desc :=
  ⟨fun a b => le_total b.created_at a.created_at⟩

instance : IsTrans FeedItem feed_desc :=
  ⟨fun _ _ _ hab hbc => le_trans hbc hab⟩

/-- The feed list built by `get_feed`: transcripts mapped, then icebreakers
mapped, appended in that order and stably sorted descending by `created_at`. -/
def feed_items (transcripts : List StoredTranscript)
    (icebreakers : List StoredIcebreaker) : List FeedItem :=
  List.insertionSort feed_desc
    (transcripts.map transcript_feed_item ++ icebreakers.map icebreaker_feed_item)

/-- `GET /feed`: two store reads (each already ordered and limited to 20 by the
store query), mapping, merge and sort; any store exception propagates as a 500. -/
def get_feed (transcripts_data : Except String (List StoredTranscript))
    (icebreakers_data : Except String (List StoredIcebreaker)) :
    Except String (List FeedItem) :=
  match transcripts_data with
  | Except.error e => Except.error e
  | Except.ok transcripts =>
    match icebreakers_data with
    | Except.error e => Except.error e
    | Except.ok icebreakers => Except.ok (feed_items transcripts icebreakers)

/-- C4: if no model credential is configured then for every prompt `call_ai`
returns immediately with status `"error"`, the fixed configuration-missing
message as summary and exactly one insight, and issues zero calls to the
external model service (the call counter is `0`). -/
theorem missing_key_short_circuit (key : Option String)
    (groq_call : String → Except String String) (prompt : String)
    (hkey : groq_configured key = false) :
    call_ai key groq_call prompt = (config_error_analysis, 0) ∧
    (call_ai key groq_call prompt).1.status = "error" ∧
    (call_ai key groq_call prompt).1.summary =
      "Error: GROQ_API_KEY not configured. Please set your Groq API key in the .env file." ∧
    (call_ai key groq_call prompt).1.insights.length = 1 ∧
    (call_ai key groq_call prompt).2 = 0 := by
  have heq : call_ai key groq_call prompt = (config_error_analysis, 0) := by
    simp [call_ai, hkey]
  refine ⟨heq, ?_, ?_, ?_, ?_⟩ <;> rw [heq] <;> rfl

/-- Witness for C4 at `key := none` and a stub model oracle. -/
theorem missing_key_short_circuit_witness :
    call_ai none (fun _ => Except.ok "some model text") "any prompt" =
      (config_error_analysis, 0) :=
  (missing_key_short_circuit none (fun _ => Except.ok "some model text") "any prompt" rfl).1

/-- C6: whenever the external model call succeeds with raw text `t`, `call_ai`
returns status `"success"`, summary exactly `t` unmodified, and an empty
insights sequence (after exactly one external call). -/
theorem model_success_passthrough (key : Option String)
    (groq_call : String → Except String String) (prompt t : String)
    (hkey : groq_configured key = true) (h : groq_call prompt = Except.ok t) :
    call_ai key groq_call prompt =
      ({ summary := t, insights := [], status := "success" }, 1) := by
  simp [call_ai, hkey, h]

/-- Witness for C6 with a stub oracle returning fixed text. -/
theorem model_success_passthrough_witness :
    call_ai (some "gsk_live") (fun _ => Except.ok "Good job.") "p" =
      ({ summary := "Good job.", insights := [], status := "success" }, 1) :=
  model_success_passthrough (some "gsk_live") (fun _ => Except.ok "Good job.") "p"
    "Good job." rfl rfl

/-- C7: every analysis produced by the Model Gateway with status `"error"` has
at most one insight, and its summary is an error message: it begins with the
literal text `Error`, never model output. -/
theorem error_analysis_shape (key : Option String)
    (groq_call : String → Except String String) (prompt : String)
    (h : (call_ai key groq_call prompt).1.status = "error") :
    (call_ai key groq_call prompt).1.insights.length ≤ 1 ∧
    ∃ rest, (call_ai key groq_call prompt).1.summary = "Error" ++ rest := by
  cases hcfg : groq_configured key with
  | false =>
    have heq : call_ai key groq_call prompt = (config_error_analysis, 0) := by
      simp [call_ai, hcfg]
    rw [heq]
    exact ⟨by decide,
      ⟨": GROQ_API_KEY not configured. Please set your Groq API key in the .env file.",
        by decide⟩⟩
  | true =>
    cases hgc : groq_call prompt with
    | ok t =>
      have hst : (call_ai key groq_call prompt).1.status = "success" := by
        simp [call_ai, hcfg, hgc]
      rw [hst] at h
      exact absurd h (by decide)
    | error e =>
      have heq : call_ai key groq_call prompt = (groq_error_analysis e, 1) := by
        simp [call_ai, hcfg, hgc]
      rw [heq]
      refine ⟨by simp [groq_error_analysis], ⟨" calling Groq API: " ++ e, ?_⟩⟩
      show ("Error calling Groq API: " ++ e) = "Error" ++ (" calling Groq API: " ++ e)
      have hsplit : ("Error calling Groq API: " : String) = "Error" ++ " calling Groq API: " := by
        decide
      rw [← String.append_assoc, ← hsplit]

/-- Witness for C7 at the configuration-error input. -/
theorem error_analysis_shape_witness :
    (call_ai none (fun _ => Except.ok "x") "p").1.insights.length ≤ 1 ∧
    ∃ rest, (call_ai none (fun _ => Except.ok "x") "p").1.summary = "Error" ++ rest :=
  error_analysis_shape none (fun _ => Except.ok "x") "p" rfl

/-- C3: when the external model call raises, `call_ai` converts the failure to
a status-`"error"` analysis whose summary carries the stringified reason, and
each submitting handler still persists the record containing that error
analysis (the row handed to the insert) and answers with HTTP success
(`Except.ok`), not a server error. -/
theorem model_failure_embedded_and_persisted (key : Option String)
    (groq_call : String → Except String String)
    (insT : TranscriptRow → Except String (List String))
    (insI : IcebreakerRow → Except String (List String))
    (tdata : TranscriptRequest) (idata : IcebreakerRequest)
    (e1 e2 : String) (ids1 ids2 : List String)
    (hkey : groq_configured key = true)
    (h1 : groq_call (transcript_prompt tdata) = Except.error e1)
    (h2 : groq_call (icebreaker_prompt idata) = Except.error e2)
    (hins1 : insT (transcript_insert_row tdata (groq_error_analysis e1)) = Except.ok ids1)
    (hins2 : insI (icebreaker_insert_row idata (groq_error_analysis e2)) = Except.ok ids2) :
    analyze_transcript key groq_call insT tdata =
      Except.ok { result := groq_error_analysis e1, id := ids1.head? } ∧
    generate_icebreaker key groq_call insI idata =
      Except.ok { result := groq_error_analysis e2, id := ids2.head? } ∧
    (groq_error_analysis e1).status = "error" ∧
    (groq_error_analysis e1).summary = "Error calling Groq API: " ++ e1 ∧
    (transcript_insert_row tdata (groq_error_analysis e1)).analysis = groq_error_analysis e1 ∧
    (icebreaker_insert_row idata (groq_error_analysis e2)).analysis = groq_error_analysis e2 := by
  have hai1 : (call_ai key groq_call (transcript_prompt tdata)).1 = groq_error_analysis e1 := by
    simp [call_ai, hkey, h1]
  have hai2 : (call_ai key groq_call (icebreaker_prompt idata)).1 = groq_error_analysis e2 := by
    simp [call_ai, hkey, h2]
  refine ⟨?_, ?_, rfl, rfl, rfl, rfl⟩
  · simp [analyze_transcript, hai1, hins1]
  · simp [generate_icebreaker, hai2, hins2]

/-- Witness for C3 with stub oracles: the model raises `boom`, the store
accepts the rows. -/
theorem model_failure_embedded_and_persisted_witness :
    analyze_transcript (some "gsk") (fun _ => Except.error "boom")
        (fun _ => Except.ok ["r1"]) { transcript := "call notes" } =
      Except.ok { result := groq_error_analysis "boom", id := some "r1" } ∧
    generate_icebreaker (some "gsk") (fun _ => Except.error "boom")
        (fun _ => Except.ok ["r2"])
        { username := "Jane", role := "CTO", linkedin_bio := "bio" } =
      Except.ok { result := groq_error_analysis "boom", id := some "r2" } :=
  have h := model_failure_embedded_and_persisted (some "gsk")
    (fun _ => Except.error "boom") (fun _ => Except.ok ["r1"]) (fun _ => Except.ok ["r2"])
    { transcript := "call notes" } { username := "Jane", role := "CTO", linkedin_bio := "bio" }
    "boom" "boom" ["r1"] ["r2"] rfl rfl rfl rfl rfl
  ⟨h.1, h.2.1⟩

/-- C5: a store failure is not recovered: a failing insert makes either
submission handler answer `Except.error` with the underlying message, and a
failing read on either `/feed` query makes `get_feed` answer `Except.error`
with the underlying message and no partial feed. -/
theorem store_failure_propagates (key : Option String)
    (groq_call : String → Except String String)
    (insT : TranscriptRow → Except String (List String))
    (insI : IcebreakerRow → Except String (List String))
    (tdata : TranscriptRequest) (idata : IcebreakerRequest) (e : String)
    (ts : List StoredTranscript) (ibs_exc : Except String (List StoredIcebreaker)) :
    (insT (transcript_insert_row tdata
        (call_ai key groq_call (transcript_prompt tdata)).1) = Except.error e →
      analyze_transcript key groq_call insT tdata = Except.error e) ∧
    (insI (icebreaker_insert_row idata
        (call_ai key groq_call (icebreaker_prompt idata)).1) = Except.error e →
      generate_icebreaker key groq_call insI idata = Except.error e) ∧
    get_feed (Except.error e) ibs_exc = Except.error e ∧
    get_feed (Except.ok ts) (Except.error e) = Except.error e := by
  refine ⟨?_, ?_, rfl, rfl⟩
  · intro h
    simp [analyze_transcript, h]
  · intro h
    simp [generate_icebreaker, h]

/-- Witness for C5 with a store that raises `db down` on every operation. -/
theorem store_failure_propagates_witness :
    analyze_transcript none (fun _ => Except.ok "t") (fun _ => Except.error "db down")
        { transcript := "call" } = Except.error "db down" ∧
    get_feed (Except.error "db down")
        (Except.ok ([] : List StoredIcebreaker)) = Except.error "db down" :=
  have h := store_failure_propagates none (fun _ => Except.ok "t")
    (fun _ => Except.error "db down") (fun _ => Except.error "db down")
    { transcript := "call" } { username := "u", role := "r", linkedin_bio := "b" }
    "db down" [] (Except.ok [])
  ⟨h.1 rfl, h.2.2.1⟩

/-- C9: when the store insert completes without raising but returns no rows,
each handler still answers success, with `id` equal to null (`none`). -/
theorem empty_insert_result_gives_null_id (key : Option String)
    (groq_call : String → Except String String)
    (insT : TranscriptRow → Except String (List String))
    (insI : IcebreakerRow → Except String (List String))
    (tdata : TranscriptRequest) (idata : IcebreakerRequest)
    (h1 : insT (transcript_insert_row tdata
        (call_ai key groq_call (transcript_prompt tdata)).1) = Except.ok [])
    (h2 : insI (icebreaker_insert_row idata
        (call_ai key groq_call (icebreaker_prompt idata)).1) = Except.ok []) :
    analyze_transcript key groq_call insT tdata =
      Except.ok { result := (call_ai key groq_call (transcript_prompt tdata)).1, id := none } ∧
    generate_icebreaker key groq_call insI idata =
      Except.ok { result := (call_ai key groq_call (icebreaker_prompt idata)).1, id := none } := by
  constructor
  · simp [analyze_transcript, h1]
  · simp [generate_icebreaker, h2]

/-- Witness for C9 with a store insert returning an empty row list. -/
theorem empty_insert_result_gives_null_id_witness :
    analyze_transcript none (fun _ => Except.ok "t") (fun _ => Except.ok [])
        { transcript := "call" } =
      Except.ok { result := (call_ai none (fun _ => Except.ok "t")
        (transcript_prompt { transcript := "call" })).1, id := none } :=
  (empty_insert_result_gives_null_id none (fun _ => Except.ok "t")
    (fun _ => Except.ok []) (fun _ => Except.ok []) { transcript := "call" }
    { username := "u", role := "r", linkedin_bio := "b" } rfl rfl).1

/-- C1: every successful feed response is sorted nonincreasing by the
`created_at` string: `get_feed` answers with `feed_items`, and in that list
every later item has a `created_at` less than or equal to every earlier one
(so in particular every adjacent pair). -/
theorem feed_sorted_desc_by_created_at (ts : List StoredTranscript)
    (ibs : List StoredIcebreaker) :
    get_feed (Except.ok ts) (Except.ok ibs) = Except.ok (feed_items ts ibs) ∧
    (feed_items ts ibs).Pairwise (fun a b => b.created_at ≤ a.created_at) :=
  ⟨rfl, List.sorted_insertionSort feed_desc _⟩

/-- Inserting `x` into `l` with `orderedInsert feed_desc` preserves
`Pairwise Q` when `x` is `Q`-related to everything in `l` and every element
`x` must pass over (strictly larger key) is `Q`-related back to `x`. -/
theorem pairwise_orderedInsert_of {Q : FeedItem → FeedItem → Prop} (x : FeedItem) :
    ∀ l : List FeedItem, l.Pairwise Q → (∀ b ∈ l, Q x b) →
      (∀ b ∈ l, ¬ feed_desc x b → Q b x) →
      (List.orderedInsert feed_desc x l).Pairwise Q := by
  intro l
  induction l with
  | nil => intro _ _ _; simp [List.orderedInsert]
  | cons b l ih =>
    intro hl hx hrev
    rw [List.orderedInsert]
    by_cases h : feed_desc x b
    · rw [if_pos h]
      exact List.pairwise_cons.mpr ⟨hx, hl⟩
    · rw [if_neg h]
      refine List.pairwise_cons.mpr ⟨?_, ?_⟩
      · intro c hc
        rcases (List.mem_orderedInsert feed_desc).mp hc with hcx | hcl
        · rw [hcx]
          exact hrev b (List.mem_cons_self b l) h
        · exact (List.pairwise_cons.mp hl).1 c hcl
      · exact ih (List.pairwise_cons.mp hl).2
          (fun c hc => hx c (List.mem_cons_of_mem b hc))
          (fun c hc hnd => hrev c (List.mem_cons_of_mem b hc) hnd)

/-- The stable sort `insertionSort feed_desc` preserves any pairwise relation
`Q` that holds automatically between elements with distinct keys. -/
theorem pairwise_insertionSort_of {Q : FeedItem → FeedItem → Prop}
    (hrev : ∀ a b : FeedItem, ¬ feed_desc a b → Q b a) :
    ∀ l : List FeedItem, l.Pairwise Q → (List.insertionSort feed_desc l).Pairwise Q := by
  intro l
  induction l with
  | nil => intro _; simp [List.insertionSort]
  | cons b l ih =>
    intro hl
    rw [List.insertionSort]
    refine pairwise_orderedInsert_of b _ (ih (List.pairwise_cons.mp hl).2) ?_ ?_
    · intro c hc
      exact (List.pairwise_cons.mp hl).1 c ((List.mem_insertionSort feed_desc).mp hc)
    · intro c _ hnd
      exact hrev b c hnd

/-- In the concatenation built by `get_feed`, every transcript-derived item
comes before every icebreaker-derived item, so the no-icebreaker-before-
transcript-on-equal-keys relation holds pairwise. -/
theorem pairwise_concat_types (ts : List StoredTranscript)
    (ibs : List StoredIcebreaker) :
    (ts.map transcript_feed_item ++ ibs.map icebreaker_feed_item).Pairwise
      (fun a b => a.created_at = b.created_at →
        ¬(a.type = "icebreaker" ∧ b.type = "transcript")) := by
  rw [List.pairwise_append]
  refine ⟨?_, ?_, ?_⟩
  · refine List.pairwise_of_forall_mem_list ?_
    intro a ha b _ _ hty
    rcases List.mem_map.mp ha with ⟨x, _, hx⟩
    rw [← hx] at hty
    exact absurd hty.1 (by simp [transcript_feed_item])
  · refine List.pairwise_of_forall_mem_list ?_
    intro a _ b hb _ hty
    rcases List.mem_map.mp hb with ⟨x, _, hx⟩
    rw [← hx] at hty
    exact absurd hty.2 (by simp [icebreaker_feed_item])
  · intro a ha b _ _ hty
    rcases List.mem_map.mp ha with ⟨x, _, hx⟩
    rw [← hx] at hty
    exact absurd hty.1 (by simp [transcript_feed_item])

/-- C10: in every feed response, whenever a transcript-derived item and an
icebreaker-derived item carry equal `created_at` strings, the transcript one
appears first: the aggregator appends transcripts before icebreakers and the
stable descending sort keeps the relative order of equal keys, so no
icebreaker item ever precedes a transcript item of equal `created_at`. -/
theorem ties_keep_transcripts_first (ts : List StoredTranscript)
    (ibs : List StoredIcebreaker) :
    get_feed (Except.ok ts) (Except.ok ibs) = Except.ok (feed_items ts ibs) ∧
    (feed_items ts ibs).Pairwise
      (fun a b => a.created_at = b.created_at →
        ¬(a.type = "icebreaker" ∧ b.type = "transcript")) := by
  refine ⟨rfl, ?_⟩
  refine pairwise_insertionSort_of ?_ _ (pairwise_concat_types ts ibs)
  intro a b hnd hEq _
  exact hnd (le_of_eq hEq)

/-- A stored transcript row whose text keys are present but hold empty strings. -/
def stored_transcript_empty_fields : StoredTranscript :=
  { id := "t1",
    company_name := some "",
    attendees := some "",
    date := some "",
    analysis := none,
    created_at := some "2024-01-01T00:00:00" }

/-- A stored icebreaker row whose text keys are present but hold empty strings. -/
def stored_icebreaker_empty_fields : StoredIcebreaker :=
  { id := "i1",
    username := some "",
    role := some "",
    analysis := none,
    created_at := some "2024-01-01T00:00:00" }

/-- C2 counterexample: a stored transcript whose `company_name` is the empty
string is mapped to a feed item whose title is `""`, not `"Unknown Company"`
(and likewise for an empty stored `username` and `role`): the code defaults
only when the key is absent, since `dict.get` never applies its default to a
present-but-empty value. -/
theorem empty_field_title_counterexample :
    (transcript_feed_item stored_transcript_empty_fields).title ≠ "Unknown Company" ∧
    (icebreaker_feed_item stored_icebreaker_empty_fields).title ≠
      "LinkedIn Icebreaker - Unknown User" ∧
    (icebreaker_feed_item stored_icebreaker_empty_fields).description ≠
      "Unknown Role • Sales Outreach Analysis" :=
  ⟨by decide, by decide, by decide⟩

/-- C2 amended: the fallback titles apply exactly when the stored key is
absent (`none`): an absent `company_name` yields title `"Unknown Company"`, an
absent `username` yields `"LinkedIn Icebreaker - Unknown User"`, an absent
`role` yields description `"Unknown Role • Sales Outreach Analysis"`; any
present value, the empty string included, is passed through unchanged. -/
theorem feed_title_defaults_on_missing_keys (r : StoredTranscript)
    (s : StoredIcebreaker) :
    (r.company_name = none → (transcript_feed_item r).title = "Unknown Company") ∧
    (∀ c, r.company_name = some c → (transcript_feed_item r).title = c) ∧
    (s.username = none →
      (icebreaker_feed_item s).title = "LinkedIn Icebreaker - Unknown User") ∧
    (∀ u, s.username = some u →
      (icebreaker_feed_item s).title = "LinkedIn Icebreaker - " ++ u) ∧
    (s.role = none →
      (icebreaker_feed_item s).description = "Unknown Role • Sales Outreach Analysis") ∧
    (∀ ro, s.role = some ro →
      (icebreaker_feed_item s).description = ro ++ " • Sales Outreach Analysis") := by
  refine ⟨?_, ?_, ?_, ?_, ?_, ?_⟩
  · intro h; simp [transcript_feed_item, h]
  · intro c h; simp [transcript_feed_item, h]
  · intro h; simp [icebreaker_feed_item, h]
  · intro u h; simp [icebreaker_feed_item, h]
  · intro h; simp [icebreaker_feed_item, h]
  · intro ro h; simp [icebreaker_feed_item, h]

/-- A stored transcript row with every optional key absent. -/
def stored_transcript_absent_fields : StoredTranscript :=
  { id := "t2",
    company_name := none,
    attendees := none,
    date := none,
    analysis := none,
    created_at := none }

/-- A stored icebreaker row with every optional key absent. -/
def stored_icebreaker_absent_fields : StoredIcebreaker :=
  { id := "i2",
    username := none,
    role := none,
    analysis := none,
    created_at := none }

/-- A stored transcript row whose `company_name` key holds `Acme`. -/
def stored_transcript_acme : StoredTranscript :=
  { id := "t3",
    company_name := some "Acme",
    attendees := none,
    date := none,
    analysis := none,
    created_at := none }

/-- Witness for the amended C2 at records with absent and with present keys. -/
theorem feed_title_defaults_on_missing_keys_witness :
    (transcript_feed_item stored_transcript_absent_fields).title = "Unknown Company" ∧
    (icebreaker_feed_item stored_icebreaker_absent_fields).title =
      "LinkedIn Icebreaker - Unknown User" ∧
    (icebreaker_feed_item stored_icebreaker_absent_fields).description =
      "Unknown Role • Sales Outreach Analysis" ∧
    (transcript_feed_item stored_transcript_acme).title = "Acme" :=
  have h1 := feed_title_defaults_on_missing_keys
    stored_transcript_absent_fields stored_icebreaker_absent_fields
  have h2 := feed_title_defaults_on_missing_keys
    stored_transcript_acme stored_icebreaker_absent_fields
  ⟨h1.1 rfl, h1.2.2.1 rfl, h1.2.2.2.2.1 rfl, h2.2.1 "Acme" rfl⟩

/-- The username value occurs verbatim in the icebreaker template (at its
first hole). -/
theorem core_embeds_username (u rol bio deck : String) :
    embeds u (icebreaker_prompt_core u rol bio deck) :=
  ⟨ib1, ib2 ++ rol ++ ib3 ++ bio ++ ib4 ++ deck ++ ib5 ++ u ++ ib6 ++ rol ++ ib7 ++
      rol ++ ib8 ++ u ++ ib9 ++ u ++ ib10 ++ u ++ ib11 ++ rol ++ ib12,
    by simp [icebreaker_prompt_core, String.append_assoc]⟩

/-- The role value occurs verbatim in the icebreaker template. -/
theorem core_embeds_role (u rol bio deck : String) :
    embeds rol (icebreaker_prompt_core u rol bio deck) :=
  ⟨ib1 ++ u ++ ib2, ib3 ++ bio ++ ib4 ++ deck ++ ib5 ++ u ++ ib6 ++ rol ++ ib7 ++
      rol ++ ib8 ++ u ++ ib9 ++ u ++ ib10 ++ u ++ ib11 ++ rol ++ ib12,
    by simp [icebreaker_prompt_core, String.append_assoc]⟩

/-- The LinkedIn bio value occurs verbatim in the icebreaker template. -/
theorem core_embeds_bio (u rol bio deck : String) :
    embeds bio (icebreaker_prompt_core u rol bio deck) :=
  ⟨ib1 ++ u ++ ib2 ++ rol ++ ib3, ib4 ++ deck ++ ib5 ++ u ++ ib6 ++ rol ++ ib7 ++
      rol ++ ib8 ++ u ++ ib9 ++ u ++ ib10 ++ u ++ ib11 ++ rol ++ ib12,
    by simp [icebreaker_prompt_core, String.append_assoc]⟩

/-- The deck-context value occurs verbatim in the icebreaker template. -/
theorem core_embeds_deck (u rol bio deck : String) :
    embeds deck (icebreaker_prompt_core u rol bio deck) :=
  ⟨ib1 ++ u ++ ib2 ++ rol ++ ib3 ++ bio ++ ib4, ib5 ++ u ++ ib6 ++ rol ++ ib7 ++
      rol ++ ib8 ++ u ++ ib9 ++ u ++ ib10 ++ u ++ ib11 ++ rol ++ ib12,
    by simp [icebreaker_prompt_core, String.append_assoc]⟩

/-- An icebreaker request that leaves the optional `deck_url` at its
empty-string default. -/
def icebreaker_request_no_deck : IcebreakerRequest :=
  { username := "Jane",
    role := "CTO",
    linkedin_bio := "Engineering leader",
    deck_url := "" }

set_option maxRecDepth 100000 in
/-- C8 counterexample: on an icebreaker request whose optional `deck_url`
defaults to the empty string, the built prompt is NOT the template with every
field embedded verbatim: the deck hole is rendered as the placeholder
`No pitch deck provided` instead of the empty field value. -/
theorem deck_url_not_verbatim_counterexample :
    icebreaker_prompt icebreaker_request_no_deck ≠
      icebreaker_prompt_spec icebreaker_request_no_deck := by
  decide

/-- C8 amended: prompt building is a pure function of the request; every
transcript field is embedded verbatim (empty-string defaults included, never
null/absent), and every icebreaker field is embedded verbatim except that an
empty `deck_url` is rendered as the fixed placeholder `No pitch deck provided`
(a non-empty `deck_url` makes the prompt agree with the all-verbatim
template); no other sanitization, truncation or escaping is performed. -/
theorem prompt_fields_embedded (t : TranscriptRequest) (i : IcebreakerRequest) :
    embeds t.company_name (transcript_prompt t) ∧
    embeds t.attendees (transcript_prompt t) ∧
    embeds t.date (transcript_prompt t) ∧
    embeds t.transcript (transcript_prompt t) ∧
    embeds i.username (icebreaker_prompt i) ∧
    embeds i.role (icebreaker_prompt i) ∧
    embeds i.linkedin_bio (icebreaker_prompt i) ∧
    (i.deck_url ≠ "" → icebreaker_prompt i = icebreaker_prompt_spec i) ∧
    (i.deck_url = "" → embeds "No pitch deck provided" (icebreaker_prompt i)) := by
  refine ⟨?_, ?_, ?_, ?_, ?_, ?_, ?_, ?_, ?_⟩
  · exact ⟨tp1, tp2 ++ t.attendees ++ tp3 ++ t.date ++ tp4 ++ t.transcript ++ tp5,
      by simp [transcript_prompt, String.append_assoc]⟩
  · exact ⟨tp1 ++ t.company_name ++ tp2, tp3 ++ t.date ++ tp4 ++ t.transcript ++ tp5,
      by simp [transcript_prompt, String.append_assoc]⟩
  · exact ⟨tp1 ++ t.company_name ++ tp2 ++ t.attendees ++ tp3, tp4 ++ t.transcript ++ tp5,
      by simp [transcript_prompt, String.append_assoc]⟩
  · exact ⟨tp1 ++ t.company_name ++ tp2 ++ t.attendees ++ tp3 ++ t.date ++ tp4, tp5,
      by simp [transcript_prompt, String.append_assoc]⟩
  · exact core_embeds_username i.username i.role i.linkedin_bio _
  · exact core_embeds_role i.username i.role i.linkedin_bio _
  · exact core_embeds_bio i.username i.role i.linkedin_bio _
  · intro h
    simp [icebreaker_prompt, icebreaker_prompt_spec, h]
  · intro h
    have : icebreaker_prompt i =
        icebreaker_prompt_core i.username i.role i.linkedin_bio "No pitch deck provided" := by
      simp [icebreaker_prompt, h]
    rw [this]
    exact core_embeds_deck i.username i.role i.linkedin_bio "No pitch deck provided"

/-- An icebreaker request with a non-empty `deck_url`. -/
def icebreaker_request_with_deck : IcebreakerRequest :=
  { username := "Jane",
    role := "CTO",
    linkedin_bio := "bio",
    deck_url := "slides.pdf" }

/-- Witness for the amended C8 at a request with an empty `deck_url` and one
with a non-empty `deck_url`. -/
theorem prompt_fields_embedded_witness :
    embeds "hello" (transcript_prompt { transcript := "hello" }) ∧
    (icebreaker_request_with_deck.deck_url ≠ "" →
      icebreaker_prompt icebreaker_request_with_deck =
        icebreaker_prompt_spec icebreaker_request_with_deck) ∧
    (icebreaker_request_no_deck.deck_url = "" →
      embeds "No pitch deck provided" (icebreaker_prompt icebreaker_request_no_deck)) :=
  have h1 := prompt_fields_embedded { transcript := "hello" } icebreaker_request_with_deck
  have h2 := prompt_fields_embedded { transcript := "hello" } icebreaker_request_no_deck
  ⟨h1.2.2.2.1, h1.2.2.2.2.2.2.2.1, h2.2.2.2.2.2.2.2.2⟩

end Backend
